import Mathlib

/-!
Shallow embedding of `cc/hybrid/ecies_aead_hkdf_hybrid_decrypt.cc` (Tink, C++).

The file implements the decryption side of an ECIES hybrid encryption scheme:
key validation (`Validate`), decryptor construction (`EciesAeadHkdfHybridDecrypt::New`)
and the decrypt operation (`EciesAeadHkdfHybridDecrypt::Decrypt`).

Collaborators invoked by the source but implemented outside the given sources
(the KEM agreement engine `subtle::EciesHkdfRecipientKemBoringSsl`, the DEM helper
`EciesAeadHkdfDemHelper`, the AEAD primitive, and the pure header-size lookup
`subtle::EcUtil::EncodingSizeInBytes`) are modelled abstractly, as function-valued
parameters: every theorem below quantifies over them, so the theorems speak only
about what the source file itself does.
-/

namespace Tink

/-- Byte strings (`std::string` / `absl::string_view` of bytes). -/
abbrev Bytes := List Nat

/-- `google::crypto::tink::EllipticCurveType` (proto enum).  The C++ code converts
it with `util::Enums::ProtoToSubtle` to the equivalent subtle enum; the conversion
is constructor-wise, so proto and subtle values are identified here. -/
inductive EllipticCurveType where
  | UNKNOWN_CURVE
  | NIST_P256
  | NIST_P384
  | NIST_P521
  | CURVE25519
deriving DecidableEq, Repr

/-- `google::crypto::tink::EcPointFormat` (proto enum), identified with its subtle
counterpart as for `EllipticCurveType`. -/
inductive EcPointFormat where
  | UNKNOWN_FORMAT
  | UNCOMPRESSED
  | COMPRESSED
  | DO_NOT_USE_CRUNCHY_UNCOMPRESSED
deriving DecidableEq, Repr

/-- `google::crypto::tink::HashType` (proto enum), identified with its subtle
counterpart as for `EllipticCurveType`. -/
inductive HashType where
  | UNKNOWN_HASH
  | SHA1
  | SHA256
  | SHA384
  | SHA512
deriving DecidableEq, Repr

/-- `util::error` codes that appear in the source; collaborator errors may carry
any code. -/
inductive ErrorCode where
  | INVALID_ARGUMENT
  | UNIMPLEMENTED
  | INTERNAL
  | UNKNOWN
deriving DecidableEq, Repr

/-- A non-OK `util::Status`: an error code plus a message. -/
structure ErrorStatus where
  code : ErrorCode
  message : String
deriving DecidableEq, Repr

/-- `util::Status`: OK or an error. -/
inductive Status where
  | ok
  | error (e : ErrorStatus)
deriving DecidableEq, Repr

/-- `util::StatusOr<T>`: either a value or an error status. -/
abbrev StatusOr (α : Type) := Except ErrorStatus α

/-- `google::crypto::tink::KeyTemplate`, the value of the `aead_dem` field.  Its
contents are only handed to the DEM collaborator, so it is kept as an opaque
record of its two bytes fields. -/
structure KeyTemplate where
  type_url : Bytes := []
  value : Bytes := []
deriving DecidableEq, Repr

/-- `google::crypto::tink::EciesHkdfKemParams` (proto message). -/
structure EciesHkdfKemParams where
  curve_type : EllipticCurveType := .UNKNOWN_CURVE
  hkdf_hash_type : HashType := .UNKNOWN_HASH
  hkdf_salt : Bytes := []
deriving DecidableEq, Repr

/-- `google::crypto::tink::EciesAeadDemParams` (proto message). -/
structure EciesAeadDemParams where
  aead_dem : KeyTemplate := {}
deriving DecidableEq, Repr

/-- `google::crypto::tink::EciesAeadHkdfParams` (proto message).  Sub-message
fields carry protobuf presence, hence `Option`; reading an absent sub-message
yields its default instance (see the accessors below). -/
structure EciesAeadHkdfParams where
  kem_params : Option EciesHkdfKemParams := none
  dem_params : Option EciesAeadDemParams := none
  ec_point_format : EcPointFormat := .UNKNOWN_FORMAT
deriving DecidableEq, Repr

/-- `has_kem_params()`. -/
def EciesAeadHkdfParams.has_kem_params (p : EciesAeadHkdfParams) : Bool :=
  p.kem_params.isSome

/-- `kem_params()`: the sub-message, or its default instance when absent. -/
def EciesAeadHkdfParams.getKemParams (p : EciesAeadHkdfParams) : EciesHkdfKemParams :=
  p.kem_params.getD {}

/-- `dem_params()`: the sub-message, or its default instance when absent. -/
def EciesAeadHkdfParams.getDemParams (p : EciesAeadHkdfParams) : EciesAeadDemParams :=
  p.dem_params.getD {}

/-- `google::crypto::tink::EciesAeadHkdfPublicKey` (proto message). -/
structure EciesAeadHkdfPublicKey where
  params : Option EciesAeadHkdfParams := none
  x : Bytes := []
  y : Bytes := []
deriving DecidableEq, Repr

/-- `has_params()`. -/
def EciesAeadHkdfPublicKey.has_params (k : EciesAeadHkdfPublicKey) : Bool :=
  k.params.isSome

/-- `params()`: the sub-message, or its default instance when absent. -/
def EciesAeadHkdfPublicKey.getParams (k : EciesAeadHkdfPublicKey) : EciesAeadHkdfParams :=
  k.params.getD {}

/-- `google::crypto::tink::EciesAeadHkdfPrivateKey` (proto message). -/
structure EciesAeadHkdfPrivateKey where
  public_key : Option EciesAeadHkdfPublicKey := none
  key_value : Bytes := []
deriving DecidableEq, Repr

/-- `has_public_key()`. -/
def EciesAeadHkdfPrivateKey.has_public_key (k : EciesAeadHkdfPrivateKey) : Bool :=
  k.public_key.isSome

/-- `public_key()`: the sub-message, or its default instance when absent. -/
def EciesAeadHkdfPrivateKey.getPublicKey (k : EciesAeadHkdfPrivateKey) :
    EciesAeadHkdfPublicKey :=
  k.public_key.getD {}

/-- `Validate` from the anonymous namespace of
`ecies_aead_hkdf_hybrid_decrypt.cc`, transcribed branch for branch. -/
def Validate (key : EciesAeadHkdfPrivateKey) : Status :=
  if !key.has_public_key || !key.getPublicKey.has_params ||
      key.getPublicKey.x.isEmpty || key.key_value.isEmpty then
    .error ⟨.INVALID_ARGUMENT,
      "Invalid EciesAeadHkdfPublicKey: missing required fields."⟩
  else if key.getPublicKey.getParams.has_kem_params &&
      key.getPublicKey.getParams.getKemParams.curve_type =
        EllipticCurveType.CURVE25519 then
    if !key.getPublicKey.y.isEmpty then
      .error ⟨.INVALID_ARGUMENT,
        "Invalid EciesAeadHkdfPublicKey: has unexpected field."⟩
    else
      .ok
  else if key.getPublicKey.y.isEmpty then
    .error ⟨.INVALID_ARGUMENT,
      "Invalid EciesAeadHkdfPublicKey: missing required fields."⟩
  else
    .ok

/-- Modelled from the spec: `util::Enums::ProtoToSubtle` lives in `tink/util/enums.h`,
outside the given sources.  It converts proto enums to the equivalent subtle enums
constructor for constructor, so with the two enum spaces identified (see
`EllipticCurveType`) it is the identity.  One wrapper per overload used by the
source. -/
def Enums.ProtoToSubtleCurve (c : EllipticCurveType) : EllipticCurveType := c

/-- Modelled from the spec: the `EcPointFormat` overload of
`util::Enums::ProtoToSubtle`; see `Enums.ProtoToSubtleCurve`. -/
def Enums.ProtoToSubtleFormat (f : EcPointFormat) : EcPointFormat := f

/-- Modelled from the spec: the `HashType` overload of
`util::Enums::ProtoToSubtle`; see `Enums.ProtoToSubtleCurve`. -/
def Enums.ProtoToSubtleHash (h : HashType) : HashType := h

/-- Modelled from the spec: `util::SecretDataFromStringView` (in
`tink/util/secret_data.h`, outside the given sources) copies a byte string into a
secret-wrapped buffer with the same contents; on the byte level it is the
identity. -/
def SecretDataFromStringView (b : Bytes) : Bytes := b

/-- The AEAD primitive returned by the DEM helper (interface `tink::Aead`,
implementation outside the given sources): `Decrypt(ciphertext, associated_data)`. -/
structure Aead where
  decrypt : Bytes → Bytes → StatusOr Bytes

/-- The KEM agreement engine (`subtle::EciesHkdfRecipientKemBoringSsl`,
implementation outside the given sources):
`GenerateKey(kem_bytes, hash, hkdf_salt, hkdf_info, key_size_in_bytes,
point_format)`. -/
structure EciesHkdfRecipientKem where
  generateKey : Bytes → HashType → Bytes → Bytes → Nat → EcPointFormat → StatusOr Bytes

/-- The DEM helper (`EciesAeadHkdfDemHelper`, implementation outside the given
sources): a key size and `GetAead(symmetric_key)`. -/
structure EciesAeadHkdfDemHelper where
  dem_key_size_in_bytes : Nat
  getAead : Bytes → StatusOr Aead

/-- Modelled from the spec: `subtle::EcUtil::EncodingSizeInBytes` (in
`tink/subtle/ec_util.h`, outside the given sources) is a pure lookup from curve
and point format to the byte length of an encoded point, or an error when the
combination is unsupported.  It is kept abstract: `Decrypt` takes it as an
explicit argument of this type. -/
abbrev EncodingSizeFn := EllipticCurveType → EcPointFormat → StatusOr Nat

/-- The decryptor object: the private constructor of `EciesAeadHkdfHybridDecrypt`
stores the recipient key params and the two collaborator handles. -/
structure EciesAeadHkdfHybridDecrypt where
  recipient_key_params : EciesAeadHkdfParams
  recipient_kem : EciesHkdfRecipientKem
  dem_helper : EciesAeadHkdfDemHelper

/-- `EciesAeadHkdfHybridDecrypt::New`.  The two collaborator constructors
(`subtle::EciesHkdfRecipientKemBoringSsl::New` and `EciesAeadHkdfDemHelper::New`,
implemented outside the given sources) are passed in as functions. -/
def EciesAeadHkdfHybridDecrypt.New
    (kemNew : EllipticCurveType → Bytes → StatusOr EciesHkdfRecipientKem)
    (demNew : KeyTemplate → StatusOr EciesAeadHkdfDemHelper)
    (recipient_key : EciesAeadHkdfPrivateKey) :
    StatusOr EciesAeadHkdfHybridDecrypt :=
  match Validate recipient_key with
  | .error e => .error e
  | .ok =>
    match kemNew
        (Enums.ProtoToSubtleCurve
          recipient_key.getPublicKey.getParams.getKemParams.curve_type)
        (SecretDataFromStringView recipient_key.key_value) with
    | .error e => .error e
    | .ok kem =>
      match demNew recipient_key.getPublicKey.getParams.getDemParams.aead_dem with
      | .error e => .error e
      | .ok dem =>
        .ok ⟨recipient_key.getPublicKey.getParams, kem, dem⟩

/-- `EciesAeadHkdfHybridDecrypt::Decrypt(ciphertext, context_info)`, transcribed
statement for statement; `encodingSizeInBytes` stands for
`subtle::EcUtil::EncodingSizeInBytes` (see `EncodingSizeFn`). -/
def EciesAeadHkdfHybridDecrypt.Decrypt (encodingSizeInBytes : EncodingSizeFn)
    (d : EciesAeadHkdfHybridDecrypt) (ciphertext context_info : Bytes) :
    StatusOr Bytes :=
  match encodingSizeInBytes
      (Enums.ProtoToSubtleCurve d.recipient_key_params.getKemParams.curve_type)
      (Enums.ProtoToSubtleFormat d.recipient_key_params.ec_point_format) with
  | .error e => .error e
  | .ok header_size =>
    if ciphertext.length < header_size then
      .error ⟨.INVALID_ARGUMENT, "ciphertext too short"⟩
    else
      match d.recipient_kem.generateKey (ciphertext.take header_size)
          (Enums.ProtoToSubtleHash d.recipient_key_params.getKemParams.hkdf_hash_type)
          d.recipient_key_params.getKemParams.hkdf_salt
          context_info
          d.dem_helper.dem_key_size_in_bytes
          (Enums.ProtoToSubtleFormat d.recipient_key_params.ec_point_format) with
      | .error e => .error e
      | .ok symmetric_key =>
        match d.dem_helper.getAead symmetric_key with
        | .error e => .error e
        | .ok aead =>
          match aead.decrypt (ciphertext.drop header_size) [] with
          | .error e => .error e
          | .ok plaintext => .ok plaintext

/-! ### Concrete sample collaborators and keys, used to evaluate the theorems
at concrete inputs. -/

/-- A sample header-size lookup that answers 2 bytes for every combination. -/
def encSample : EncodingSizeFn := fun _ _ => .ok 2

/-- A sample header-size lookup that rejects every combination. -/
def encFailSample : EncodingSizeFn :=
  fun _ _ => .error ⟨.UNIMPLEMENTED, "Unsupported elliptic curve type"⟩

/-- A sample AEAD that returns the body unchanged. -/
def aeadSample : Aead := ⟨fun body _ => .ok body⟩

/-- A sample KEM engine that returns the KEM bytes as the derived key. -/
def kemSample : EciesHkdfRecipientKem := ⟨fun header _ _ _ _ _ => .ok header⟩

/-- A sample KEM engine that always fails. -/
def kemFailSample : EciesHkdfRecipientKem :=
  ⟨fun _ _ _ _ _ _ => .error ⟨.INTERNAL, "kem failure"⟩⟩

/-- A sample DEM helper wrapping `aeadSample`. -/
def demSample : EciesAeadHkdfDemHelper := ⟨16, fun _ => .ok aeadSample⟩

/-- A sample DEM helper whose `getAead` always fails. -/
def demFailSample : EciesAeadHkdfDemHelper :=
  ⟨16, fun _ => .error ⟨.INTERNAL, "dem failure"⟩⟩

/-- Sample KEM params: NIST P-256, SHA256, salt `[1, 2]`. -/
def kemParamsSample : EciesHkdfKemParams := ⟨.NIST_P256, .SHA256, [1, 2]⟩

/-- Sample key params wrapping `kemParamsSample`. -/
def paramsSample : EciesAeadHkdfParams := ⟨some kemParamsSample, some {}, .COMPRESSED⟩

/-- A sample decryptor built from the sample collaborators. -/
def dSample : EciesAeadHkdfHybridDecrypt := ⟨paramsSample, kemSample, demSample⟩

/-- A sample decryptor whose KEM engine always fails. -/
def dKemFailSample : EciesAeadHkdfHybridDecrypt := ⟨paramsSample, kemFailSample, demSample⟩

/-- A sample private key that passes `Validate`: P-256 params, non-empty
coordinates and scalar. -/
def keySample : EciesAeadHkdfPrivateKey :=
  ⟨some ⟨some paramsSample, [1], [2]⟩, [3]⟩

/-- A sample KEM constructor that always succeeds with `kemSample`. -/
def kemNewOk : EllipticCurveType → Bytes → StatusOr EciesHkdfRecipientKem :=
  fun _ _ => .ok kemSample

/-- A sample KEM constructor that always fails. -/
def kemNewErr : EllipticCurveType → Bytes → StatusOr EciesHkdfRecipientKem :=
  fun _ _ => .error ⟨.INTERNAL, "kem construction failure"⟩

/-- A sample DEM constructor that always succeeds with `demSample`. -/
def demNewOk : KeyTemplate → StatusOr EciesAeadHkdfDemHelper :=
  fun _ => .ok demSample

/-- A sample DEM constructor that always fails. -/
def demNewErr : KeyTemplate → StatusOr EciesAeadHkdfDemHelper :=
  fun _ => .error ⟨.INTERNAL, "dem construction failure"⟩

/-- A sample AEAD that always fails. -/
def aeadFailSample : Aead := ⟨fun _ _ => .error ⟨.INVALID_ARGUMENT, "decryption failed"⟩⟩

/-- A sample DEM helper wrapping the failing AEAD `aeadFailSample`. -/
def demAeadFailSample : EciesAeadHkdfDemHelper := ⟨16, fun _ => .ok aeadFailSample⟩

/-- A sample decryptor whose AEAD always fails. -/
def dAeadFailSample : EciesAeadHkdfHybridDecrypt :=
  ⟨paramsSample, kemSample, demAeadFailSample⟩

/-- Sample key params for Curve25519 (no point compression concerns; the salt
and hash are arbitrary). -/
def params25519Sample : EciesAeadHkdfParams :=
  ⟨some ⟨.CURVE25519, .SHA256, []⟩, some {}, .COMPRESSED⟩

/-- A Curve25519 private key carrying a non-empty y-coordinate. -/
def key25519BadY : EciesAeadHkdfPrivateKey :=
  ⟨some ⟨some params25519Sample, [1], [2]⟩, [3]⟩

/-- A private key with no public-key sub-record at all. -/
def keyNoPublic : EciesAeadHkdfPrivateKey := ⟨none, [1]⟩

/-- Sample key params carrying no KEM-parameters sub-block. -/
def paramsNoKem : EciesAeadHkdfParams := ⟨none, some {}, .COMPRESSED⟩

/-- A private key whose params have no KEM-parameters sub-block, with all byte
fields non-empty. -/
def keyNoKemParams : EciesAeadHkdfPrivateKey :=
  ⟨some ⟨some paramsNoKem, [1], [2]⟩, [3]⟩

/-- As `keyNoKemParams` but with an empty y-coordinate. -/
def keyNoKemParamsNoY : EciesAeadHkdfPrivateKey :=
  ⟨some ⟨some paramsNoKem, [1], []⟩, [3]⟩

/-! ### Claim theorems -/

/-- C1: for every ciphertext strictly shorter than the header length computed
for the configured curve and point format, `Decrypt` fails with the
"ciphertext too short" `INVALID_ARGUMENT` error, and the result is the same for
every KEM collaborator, so the KEM's `GenerateKey` is never invoked: the length
check happens before any slicing of the ciphertext. -/
theorem decrypt_too_short_no_kem (enc : EncodingSizeFn)
    (d : EciesAeadHkdfHybridDecrypt) (ct info : Bytes) (hs : Nat)
    (henc : enc
      (Enums.ProtoToSubtleCurve d.recipient_key_params.getKemParams.curve_type)
      (Enums.ProtoToSubtleFormat d.recipient_key_params.ec_point_format) = .ok hs)
    (hlen : ct.length < hs) :
    d.Decrypt enc ct info =
      .error ⟨.INVALID_ARGUMENT, "ciphertext too short"⟩ ∧
    ∀ kem : EciesHkdfRecipientKem,
      EciesAeadHkdfHybridDecrypt.Decrypt enc
          ⟨d.recipient_key_params, kem, d.dem_helper⟩ ct info =
        .error ⟨.INVALID_ARGUMENT, "ciphertext too short"⟩ := by
  constructor
  · simp only [EciesAeadHkdfHybridDecrypt.Decrypt, henc]
    simp [hlen]
  · intro kem
    simp only [EciesAeadHkdfHybridDecrypt.Decrypt]
    simp only [henc]
    simp [hlen]

/-- Witness for C1: a one-byte ciphertext against a 2-byte header, for the
sample decryptor and also with the KEM replaced by `kemFailSample`. -/
theorem decrypt_too_short_no_kem_witness :
    dSample.Decrypt encSample [0] [] =
      .error ⟨.INVALID_ARGUMENT, "ciphertext too short"⟩ ∧
    EciesAeadHkdfHybridDecrypt.Decrypt encSample
        ⟨dSample.recipient_key_params, kemFailSample, dSample.dem_helper⟩ [0] [] =
      .error ⟨.INVALID_ARGUMENT, "ciphertext too short"⟩ :=
  ⟨(decrypt_too_short_no_kem encSample dSample [0] [] 2 rfl (by decide)).1,
   (decrypt_too_short_no_kem encSample dSample [0] [] 2 rfl (by decide)).2
     kemFailSample⟩

/-- C2: for every ciphertext of length at least the header length, `Decrypt`
consults the KEM only through `GenerateKey` applied to exactly the first
`header_size` bytes of the ciphertext, the configured KDF hash, the configured
salt, the caller's `context_info`, the DEM helper's key size and the configured
point format: two KEM engines agreeing on that one call give identical results,
and an error of that one call is returned as is. -/
theorem decrypt_kem_call_args (enc : EncodingSizeFn)
    (d : EciesAeadHkdfHybridDecrypt) (ct info : Bytes) (hs : Nat)
    (henc : enc
      (Enums.ProtoToSubtleCurve d.recipient_key_params.getKemParams.curve_type)
      (Enums.ProtoToSubtleFormat d.recipient_key_params.ec_point_format) = .ok hs)
    (hlen : hs ≤ ct.length) :
    (∀ kem : EciesHkdfRecipientKem,
      kem.generateKey (ct.take hs)
          (Enums.ProtoToSubtleHash d.recipient_key_params.getKemParams.hkdf_hash_type)
          d.recipient_key_params.getKemParams.hkdf_salt info
          d.dem_helper.dem_key_size_in_bytes
          (Enums.ProtoToSubtleFormat d.recipient_key_params.ec_point_format) =
        d.recipient_kem.generateKey (ct.take hs)
          (Enums.ProtoToSubtleHash d.recipient_key_params.getKemParams.hkdf_hash_type)
          d.recipient_key_params.getKemParams.hkdf_salt info
          d.dem_helper.dem_key_size_in_bytes
          (Enums.ProtoToSubtleFormat d.recipient_key_params.ec_point_format) →
      EciesAeadHkdfHybridDecrypt.Decrypt enc
          ⟨d.recipient_key_params, kem, d.dem_helper⟩ ct info =
        d.Decrypt enc ct info) ∧
    (∀ e, d.recipient_kem.generateKey (ct.take hs)
          (Enums.ProtoToSubtleHash d.recipient_key_params.getKemParams.hkdf_hash_type)
          d.recipient_key_params.getKemParams.hkdf_salt info
          d.dem_helper.dem_key_size_in_bytes
          (Enums.ProtoToSubtleFormat d.recipient_key_params.ec_point_format) =
        .error e →
      d.Decrypt enc ct info = .error e) := by
  constructor
  · intro kem hagree
    simp only [EciesAeadHkdfHybridDecrypt.Decrypt, henc, Nat.not_lt.mpr hlen,
      if_neg, hagree]
  · intro e hkem
    simp only [EciesAeadHkdfHybridDecrypt.Decrypt, henc]
    simp [Nat.not_lt.mpr hlen, hkem]

/-- Witness for C2: a 3-byte ciphertext against a 2-byte header, on the sample
decryptor whose KEM always fails: the result is that KEM error, and replacing
the KEM by one agreeing on the single call leaves the result unchanged. -/
theorem decrypt_kem_call_args_witness :
    EciesAeadHkdfHybridDecrypt.Decrypt encSample
        ⟨dKemFailSample.recipient_key_params, kemFailSample,
          dKemFailSample.dem_helper⟩ [5, 6, 7] [9] =
      dKemFailSample.Decrypt encSample [5, 6, 7] [9] ∧
    dKemFailSample.Decrypt encSample [5, 6, 7] [9] =
      .error ⟨.INTERNAL, "kem failure"⟩ :=
  ⟨(decrypt_kem_call_args encSample dKemFailSample [5, 6, 7] [9] 2 rfl
      (by decide)).1 kemFailSample rfl,
   (decrypt_kem_call_args encSample dKemFailSample [5, 6, 7] [9] 2 rfl
      (by decide)).2 ⟨.INTERNAL, "kem failure"⟩ rfl⟩

/-- C3: when the KEM key derivation and the AEAD instantiation succeed,
`Decrypt` is exactly the AEAD's decrypt-and-verify applied to the ciphertext
bytes from `header_size` to the end with an empty associated-data value; in
particular a successful AEAD result is returned unchanged. -/
theorem decrypt_aead_on_body (enc : EncodingSizeFn)
    (d : EciesAeadHkdfHybridDecrypt) (ct info : Bytes) (hs : Nat)
    (key : Bytes) (aead : Aead)
    (henc : enc
      (Enums.ProtoToSubtleCurve d.recipient_key_params.getKemParams.curve_type)
      (Enums.ProtoToSubtleFormat d.recipient_key_params.ec_point_format) = .ok hs)
    (hlen : hs ≤ ct.length)
    (hkem : d.recipient_kem.generateKey (ct.take hs)
        (Enums.ProtoToSubtleHash d.recipient_key_params.getKemParams.hkdf_hash_type)
        d.recipient_key_params.getKemParams.hkdf_salt info
        d.dem_helper.dem_key_size_in_bytes
        (Enums.ProtoToSubtleFormat d.recipient_key_params.ec_point_format) =
      .ok key)
    (hga : d.dem_helper.getAead key = .ok aead) :
    d.Decrypt enc ct info = aead.decrypt (ct.drop hs) [] ∧
    ∀ p, aead.decrypt (ct.drop hs) [] = .ok p →
      d.Decrypt enc ct info = .ok p := by
  have hmain : d.Decrypt enc ct info = aead.decrypt (ct.drop hs) [] := by
    simp only [EciesAeadHkdfHybridDecrypt.Decrypt, henc]
    simp only [Nat.not_lt.mpr hlen, if_false, hkem, hga]
    cases h : aead.decrypt (ct.drop hs) [] <;> simp [h]
  exact ⟨hmain, fun p hp => hmain.trans hp⟩

/-- Witness for C3: the sample decryptor on ciphertext `[5, 6, 7]`: header
`[5, 6]`, body `[7]`, and the identity AEAD returns the body. -/
theorem decrypt_aead_on_body_witness :
    dSample.Decrypt encSample [5, 6, 7] [] = aeadSample.decrypt [7] [] ∧
    dSample.Decrypt encSample [5, 6, 7] [] = .ok [7] :=
  ⟨(decrypt_aead_on_body encSample dSample [5, 6, 7] [] 2 [5, 6] aeadSample
      rfl (by decide) rfl rfl).1,
   (decrypt_aead_on_body encSample dSample [5, 6, 7] [] 2 [5, 6] aeadSample
      rfl (by decide) rfl rfl).2 [7] rfl⟩

/-- C4: a candidate recipient key whose curve type is Curve25519 and whose
y-coordinate is non-empty (public key, params, x-coordinate and private scalar
all present and non-empty) is rejected: `Validate` returns the
"has unexpected field" `INVALID_ARGUMENT` error, and `New` returns that error
for every pair of collaborator constructors, so no decryptor is constructed. -/
theorem new_curve25519_y_present (key : EciesAeadHkdfPrivateKey)
    (pk : EciesAeadHkdfPublicKey) (p : EciesAeadHkdfParams)
    (kp : EciesHkdfKemParams)
    (hpk : key.public_key = some pk) (hp : pk.params = some p)
    (hkp : p.kem_params = some kp)
    (hcurve : kp.curve_type = EllipticCurveType.CURVE25519)
    (hx : pk.x ≠ []) (hy : pk.y ≠ []) (hkv : key.key_value ≠ []) :
    Validate key =
      .error ⟨.INVALID_ARGUMENT,
        "Invalid EciesAeadHkdfPublicKey: has unexpected field."⟩ ∧
    ∀ (kemNew : EllipticCurveType → Bytes → StatusOr EciesHkdfRecipientKem)
      (demNew : KeyTemplate → StatusOr EciesAeadHkdfDemHelper),
      EciesAeadHkdfHybridDecrypt.New kemNew demNew key =
        .error ⟨.INVALID_ARGUMENT,
          "Invalid EciesAeadHkdfPublicKey: has unexpected field."⟩ := by
  have hval : Validate key =
      .error ⟨.INVALID_ARGUMENT,
        "Invalid EciesAeadHkdfPublicKey: has unexpected field."⟩ := by
    unfold Validate
    simp [EciesAeadHkdfPrivateKey.has_public_key,
      EciesAeadHkdfPrivateKey.getPublicKey, EciesAeadHkdfPublicKey.has_params,
      EciesAeadHkdfPublicKey.getParams, EciesAeadHkdfParams.has_kem_params,
      EciesAeadHkdfParams.getKemParams, hpk, hp, hkp, hcurve, hx, hy, hkv]
  refine ⟨hval, fun kemNew demNew => ?_⟩
  simp [EciesAeadHkdfHybridDecrypt.New, hval]

/-- Witness for C4: the concrete Curve25519 key `key25519BadY` with
y-coordinate `[2]`. -/
theorem new_curve25519_y_present_witness :
    Validate key25519BadY =
      .error ⟨.INVALID_ARGUMENT,
        "Invalid EciesAeadHkdfPublicKey: has unexpected field."⟩ ∧
    EciesAeadHkdfHybridDecrypt.New kemNewOk demNewOk key25519BadY =
      .error ⟨.INVALID_ARGUMENT,
        "Invalid EciesAeadHkdfPublicKey: has unexpected field."⟩ :=
  ⟨(new_curve25519_y_present key25519BadY ⟨some params25519Sample, [1], [2]⟩
      params25519Sample ⟨.CURVE25519, .SHA256, []⟩ rfl rfl rfl rfl
      (by decide) (by decide) (by decide)).1,
   (new_curve25519_y_present key25519BadY ⟨some params25519Sample, [1], [2]⟩
      params25519Sample ⟨.CURVE25519, .SHA256, []⟩ rfl rfl rfl rfl
      (by decide) (by decide) (by decide)).2 kemNewOk demNewOk⟩

/-- C5: a candidate recipient key with a missing public-key sub-record, missing
parameter block, empty x-coordinate, empty private scalar, or — when the curve
is not Curve25519 — an empty y-coordinate, is rejected: `Validate` returns the
"missing required fields" `INVALID_ARGUMENT` error, and `New` returns that
error for every pair of collaborator constructors, before any KEM or DEM
collaborator is built. -/
theorem new_missing_fields (key : EciesAeadHkdfPrivateKey)
    (h : key.public_key = none ∨ key.getPublicKey.params = none ∨
      key.getPublicKey.x = [] ∨ key.key_value = [] ∨
      (key.getPublicKey.getParams.getKemParams.curve_type ≠
          EllipticCurveType.CURVE25519 ∧
        key.getPublicKey.y = [])) :
    Validate key =
      .error ⟨.INVALID_ARGUMENT,
        "Invalid EciesAeadHkdfPublicKey: missing required fields."⟩ ∧
    ∀ (kemNew : EllipticCurveType → Bytes → StatusOr EciesHkdfRecipientKem)
      (demNew : KeyTemplate → StatusOr EciesAeadHkdfDemHelper),
      EciesAeadHkdfHybridDecrypt.New kemNew demNew key =
        .error ⟨.INVALID_ARGUMENT,
          "Invalid EciesAeadHkdfPublicKey: missing required fields."⟩ := by
  have hval : Validate key =
      .error ⟨.INVALID_ARGUMENT,
        "Invalid EciesAeadHkdfPublicKey: missing required fields."⟩ := by
    unfold Validate
    rcases h with h | h | h | h | ⟨hc, hy⟩
    · simp [EciesAeadHkdfPrivateKey.has_public_key, h]
    · simp [EciesAeadHkdfPublicKey.has_params, h]
    · simp [h]
    · simp [h]
    · have hdec : decide (key.getPublicKey.getParams.getKemParams.curve_type =
          EllipticCurveType.CURVE25519) = false := decide_eq_false hc
      by_cases h1 : (!key.has_public_key || !key.getPublicKey.has_params ||
          key.getPublicKey.x.isEmpty || key.key_value.isEmpty) = true
      · simp [h1]
      · simp [h1, hdec, hy]
  refine ⟨hval, fun kemNew demNew => ?_⟩
  simp [EciesAeadHkdfHybridDecrypt.New, hval]

/-- Witness for C5: the concrete key `keyNoPublic`, which has no public-key
sub-record. -/
theorem new_missing_fields_witness :
    Validate keyNoPublic =
      .error ⟨.INVALID_ARGUMENT,
        "Invalid EciesAeadHkdfPublicKey: missing required fields."⟩ ∧
    EciesAeadHkdfHybridDecrypt.New kemNewOk demNewOk keyNoPublic =
      .error ⟨.INVALID_ARGUMENT,
        "Invalid EciesAeadHkdfPublicKey: missing required fields."⟩ :=
  ⟨(new_missing_fields keyNoPublic (Or.inl rfl)).1,
   (new_missing_fields keyNoPublic (Or.inl rfl)).2 kemNewOk demNewOk⟩

/-- C6: when the KEM derivation and the AEAD instantiation succeed, any failure
of the AEAD decrypt-and-verify on the ciphertext body is surfaced by `Decrypt`
as exactly the single error status that the cipher produced, with no
case analysis on its cause: the failure kind is whatever the AEAD reports,
undifferentiated by `Decrypt`. -/
theorem decrypt_aead_failure_opaque (enc : EncodingSizeFn)
    (d : EciesAeadHkdfHybridDecrypt) (ct info : Bytes) (hs : Nat)
    (key : Bytes) (aead : Aead)
    (henc : enc
      (Enums.ProtoToSubtleCurve d.recipient_key_params.getKemParams.curve_type)
      (Enums.ProtoToSubtleFormat d.recipient_key_params.ec_point_format) = .ok hs)
    (hlen : hs ≤ ct.length)
    (hkem : d.recipient_kem.generateKey (ct.take hs)
        (Enums.ProtoToSubtleHash d.recipient_key_params.getKemParams.hkdf_hash_type)
        d.recipient_key_params.getKemParams.hkdf_salt info
        d.dem_helper.dem_key_size_in_bytes
        (Enums.ProtoToSubtleFormat d.recipient_key_params.ec_point_format) =
      .ok key)
    (hga : d.dem_helper.getAead key = .ok aead) :
    ∀ e, aead.decrypt (ct.drop hs) [] = .error e →
      d.Decrypt enc ct info = .error e := by
  intro e he
  simp only [EciesAeadHkdfHybridDecrypt.Decrypt, henc]
  simp [Nat.not_lt.mpr hlen, hkem, hga, he]

/-- Witness for C6: the sample decryptor with the always-failing AEAD on
ciphertext `[5, 6, 7]`. -/
theorem decrypt_aead_failure_opaque_witness :
    dAeadFailSample.Decrypt encSample [5, 6, 7] [] =
      .error ⟨.INVALID_ARGUMENT, "decryption failed"⟩ :=
  decrypt_aead_failure_opaque encSample dAeadFailSample [5, 6, 7] [] 2 [5, 6]
    aeadFailSample rfl (by decide) rfl rfl ⟨.INVALID_ARGUMENT, "decryption failed"⟩
    rfl

/-- C7: the header length comes from the size lookup applied to the configured
curve and point format only (an `EncodingSizeFn` never sees the ciphertext);
when that lookup fails, `Decrypt` returns its error for every ciphertext and
every context, and the result is the same for every KEM and DEM collaborator,
so neither the KEM nor the AEAD is invoked. -/
theorem decrypt_header_size_error (enc : EncodingSizeFn)
    (d : EciesAeadHkdfHybridDecrypt) (e : ErrorStatus)
    (henc : enc
      (Enums.ProtoToSubtleCurve d.recipient_key_params.getKemParams.curve_type)
      (Enums.ProtoToSubtleFormat d.recipient_key_params.ec_point_format) =
      .error e) :
    (∀ ct info, d.Decrypt enc ct info = .error e) ∧
    (∀ ct info (kem : EciesHkdfRecipientKem) (dem : EciesAeadHkdfDemHelper),
      EciesAeadHkdfHybridDecrypt.Decrypt enc
        ⟨d.recipient_key_params, kem, dem⟩ ct info = .error e) := by
  constructor
  · intro ct info
    simp [EciesAeadHkdfHybridDecrypt.Decrypt, henc]
  · intro ct info kem dem
    simp [EciesAeadHkdfHybridDecrypt.Decrypt, henc]

/-- Witness for C7: the rejecting size lookup on the sample decryptor, also
with both collaborators replaced by failing ones. -/
theorem decrypt_header_size_error_witness :
    dSample.Decrypt encFailSample [0, 1, 2] [] =
      .error ⟨.UNIMPLEMENTED, "Unsupported elliptic curve type"⟩ ∧
    EciesAeadHkdfHybridDecrypt.Decrypt encFailSample
        ⟨dSample.recipient_key_params, kemFailSample, demFailSample⟩ [0, 1, 2] [] =
      .error ⟨.UNIMPLEMENTED, "Unsupported elliptic curve type"⟩ :=
  ⟨(decrypt_header_size_error encFailSample dSample
      ⟨.UNIMPLEMENTED, "Unsupported elliptic curve type"⟩ rfl).1 [0, 1, 2] [],
   (decrypt_header_size_error encFailSample dSample
      ⟨.UNIMPLEMENTED, "Unsupported elliptic curve type"⟩ rfl).2 [0, 1, 2] []
      kemFailSample demFailSample⟩

/-- C8: for a recipient key that passes validation, `New` returns the KEM
constructor's error when that fails, returns the DEM constructor's error when
the KEM succeeds and the DEM fails, and when both succeed returns the decryptor
wiring together exactly the key params and the two collaborator results — no
other computation. -/
theorem new_propagates_collaborator_errors (key : EciesAeadHkdfPrivateKey)
    (kemNew : EllipticCurveType → Bytes → StatusOr EciesHkdfRecipientKem)
    (demNew : KeyTemplate → StatusOr EciesAeadHkdfDemHelper)
    (hval : Validate key = .ok) :
    (∀ e, kemNew
        (Enums.ProtoToSubtleCurve key.getPublicKey.getParams.getKemParams.curve_type)
        (SecretDataFromStringView key.key_value) = .error e →
      EciesAeadHkdfHybridDecrypt.New kemNew demNew key = .error e) ∧
    (∀ kem e, kemNew
        (Enums.ProtoToSubtleCurve key.getPublicKey.getParams.getKemParams.curve_type)
        (SecretDataFromStringView key.key_value) = .ok kem →
      demNew key.getPublicKey.getParams.getDemParams.aead_dem = .error e →
      EciesAeadHkdfHybridDecrypt.New kemNew demNew key = .error e) ∧
    (∀ kem dem, kemNew
        (Enums.ProtoToSubtleCurve key.getPublicKey.getParams.getKemParams.curve_type)
        (SecretDataFromStringView key.key_value) = .ok kem →
      demNew key.getPublicKey.getParams.getDemParams.aead_dem = .ok dem →
      EciesAeadHkdfHybridDecrypt.New kemNew demNew key =
        .ok ⟨key.getPublicKey.getParams, kem, dem⟩) := by
  refine ⟨fun e hkem => ?_, fun kem e hkem hdem => ?_, fun kem dem hkem hdem => ?_⟩
  · simp [EciesAeadHkdfHybridDecrypt.New, hval, hkem]
  · simp [EciesAeadHkdfHybridDecrypt.New, hval, hkem, hdem]
  · simp [EciesAeadHkdfHybridDecrypt.New, hval, hkem, hdem]

/-- Witness for C8: the valid sample key under a failing KEM constructor, a
failing DEM constructor, and two succeeding constructors. -/
theorem new_propagates_collaborator_errors_witness :
    EciesAeadHkdfHybridDecrypt.New kemNewErr demNewOk keySample =
      .error ⟨.INTERNAL, "kem construction failure"⟩ ∧
    EciesAeadHkdfHybridDecrypt.New kemNewOk demNewErr keySample =
      .error ⟨.INTERNAL, "dem construction failure"⟩ ∧
    EciesAeadHkdfHybridDecrypt.New kemNewOk demNewOk keySample =
      .ok ⟨keySample.getPublicKey.getParams, kemSample, demSample⟩ :=
  ⟨(new_propagates_collaborator_errors keySample kemNewErr demNewOk rfl).1
      ⟨.INTERNAL, "kem construction failure"⟩ rfl,
   (new_propagates_collaborator_errors keySample kemNewOk demNewErr rfl).2.1
      kemSample ⟨.INTERNAL, "dem construction failure"⟩ rfl rfl,
   (new_propagates_collaborator_errors keySample kemNewOk demNewOk rfl).2.2
      kemSample demSample rfl rfl⟩

/-- C9: a ciphertext whose length equals the header length is not rejected as
too short: its entire byte sequence is handed to the KEM's `GenerateKey` as the
encoded point (an error of that call is returned as is), and on KEM and AEAD
instantiation success the AEAD decrypt-and-verify runs on an empty body with
empty associated data. -/
theorem decrypt_exact_header_length (enc : EncodingSizeFn)
    (d : EciesAeadHkdfHybridDecrypt) (ct info : Bytes) (hs : Nat)
    (henc : enc
      (Enums.ProtoToSubtleCurve d.recipient_key_params.getKemParams.curve_type)
      (Enums.ProtoToSubtleFormat d.recipient_key_params.ec_point_format) = .ok hs)
    (hlen : ct.length = hs) :
    (∀ e, d.recipient_kem.generateKey ct
        (Enums.ProtoToSubtleHash d.recipient_key_params.getKemParams.hkdf_hash_type)
        d.recipient_key_params.getKemParams.hkdf_salt info
        d.dem_helper.dem_key_size_in_bytes
        (Enums.ProtoToSubtleFormat d.recipient_key_params.ec_point_format) =
        .error e →
      d.Decrypt enc ct info = .error e) ∧
    (∀ key aead, d.recipient_kem.generateKey ct
        (Enums.ProtoToSubtleHash d.recipient_key_params.getKemParams.hkdf_hash_type)
        d.recipient_key_params.getKemParams.hkdf_salt info
        d.dem_helper.dem_key_size_in_bytes
        (Enums.ProtoToSubtleFormat d.recipient_key_params.ec_point_format) =
        .ok key →
      d.dem_helper.getAead key = .ok aead →
      d.Decrypt enc ct info = aead.decrypt [] []) := by
  have hle : hs ≤ ct.length := le_of_eq hlen.symm
  have htake : ct.take hs = ct := by
    rw [← hlen]
    exact List.take_length ct
  have hdrop : ct.drop hs = [] := by
    rw [← hlen]
    exact List.drop_length ct
  constructor
  · intro e hkem
    simp only [EciesAeadHkdfHybridDecrypt.Decrypt, henc]
    simp [Nat.not_lt.mpr hle, htake, hkem]
  · intro key aead hkem hga
    simp only [EciesAeadHkdfHybridDecrypt.Decrypt, henc]
    simp only [Nat.not_lt.mpr hle, if_false, htake, hkem, hga, hdrop]
    cases h : aead.decrypt [] [] <;> simp [h]

/-- Witness for C9: a 2-byte ciphertext against the 2-byte header, once on the
decryptor with the failing KEM and once on the fully succeeding sample
decryptor, where the body is empty. -/
theorem decrypt_exact_header_length_witness :
    dKemFailSample.Decrypt encSample [5, 6] [] =
      .error ⟨.INTERNAL, "kem failure"⟩ ∧
    dSample.Decrypt encSample [5, 6] [] = aeadSample.decrypt [] [] :=
  ⟨(decrypt_exact_header_length encSample dKemFailSample [5, 6] [] 2 rfl
      rfl).1 ⟨.INTERNAL, "kem failure"⟩ rfl,
   (decrypt_exact_header_length encSample dSample [5, 6] [] 2 rfl rfl).2
      [5, 6] aeadSample rfl rfl⟩

/-- C10: a key whose parameter block is present but carries no KEM-parameters
sub-block is treated under the non-Curve25519 rule: with non-empty
x-coordinate and private scalar, it passes validation exactly when its
y-coordinate is non-empty, and is rejected with the "missing required fields"
error when the y-coordinate is empty. -/
theorem validate_no_kem_params (key : EciesAeadHkdfPrivateKey)
    (pk : EciesAeadHkdfPublicKey) (p : EciesAeadHkdfParams)
    (hpk : key.public_key = some pk) (hp : pk.params = some p)
    (hkp : p.kem_params = none)
    (hx : pk.x ≠ []) (hkv : key.key_value ≠ []) :
    (pk.y ≠ [] → Validate key = .ok) ∧
    (pk.y = [] → Validate key =
      .error ⟨.INVALID_ARGUMENT,
        "Invalid EciesAeadHkdfPublicKey: missing required fields."⟩) := by
  constructor
  · intro hy
    unfold Validate
    simp [EciesAeadHkdfPrivateKey.has_public_key,
      EciesAeadHkdfPrivateKey.getPublicKey, EciesAeadHkdfPublicKey.has_params,
      EciesAeadHkdfPublicKey.getParams, EciesAeadHkdfParams.has_kem_params,
      hpk, hp, hkp, hx, hy, hkv]
  · intro hy
    unfold Validate
    simp [EciesAeadHkdfPrivateKey.has_public_key,
      EciesAeadHkdfPrivateKey.getPublicKey, EciesAeadHkdfPublicKey.has_params,
      EciesAeadHkdfPublicKey.getParams, EciesAeadHkdfParams.has_kem_params,
      hpk, hp, hkp, hx, hy, hkv]

/-- Witness for C10: the concrete keys `keyNoKemParams` (y = `[2]`, accepted)
and `keyNoKemParamsNoY` (y empty, rejected). -/
theorem validate_no_kem_params_witness :
    Validate keyNoKemParams = .ok ∧
    Validate keyNoKemParamsNoY =
      .error ⟨.INVALID_ARGUMENT,
        "Invalid EciesAeadHkdfPublicKey: missing required fields."⟩ :=
  ⟨(validate_no_kem_params keyNoKemParams ⟨some paramsNoKem, [1], [2]⟩
      paramsNoKem rfl rfl rfl (by decide) (by decide)).1 (by decide),
   (validate_no_kem_params keyNoKemParamsNoY ⟨some paramsNoKem, [1], []⟩
      paramsNoKem rfl rfl rfl (by decide) (by decide)).2 rfl⟩

end Tink
